import Mathlib

/-!
Verification development for the SassPlugin stylesheet preprocessing stage
(src/plugins/stylesheet/SassPlugin.ts).

The embedding models the plugin's two surfaces:

* the textual import inliner `read` / `fetchFile` (lines 43-93 of the source),
  together with the JavaScript string primitives and the Node `path.join`
  semantics it relies on; the file system is a parameter
  `fs : String -> FsResult`, and the unbounded recursion of the source is
  modelled with an explicit fuel argument (running out of fuel is the
  distinct outcome `ReadErr.outOfFuel`);
* the `transform` pipeline (lines 95-187), modelled as a pure function from
  an environment of collaborator results (cache gate, loaded contents,
  dependency extraction, compiler render result) and an input file state to
  a return kind, an output file state, and a trace of collaborator events.
-/

/-! ## JavaScript string primitives

Each definition mirrors the semantics of the ECMAScript operation the
source uses, restricted to the shapes the source actually exercises
(string-pattern `replace`, single-character `split`, `trim`,
`slice(1, -1)`, `includes`).
-/

/-- Whitespace as recognized by JavaScript `\s`, `trim`, and friends. -/
def isJsSpace (c : Char) : Bool :=
  c = ' ' || c = '\t' || c = '\n' || c = '\r' ||
  c = Char.ofNat 11 || c = Char.ofNat 12 ||
  c = Char.ofNat 160 || c = Char.ofNat 0x1680 ||
  (Char.ofNat 0x2000 ≤ c && c ≤ Char.ofNat 0x200a) ||
  c = Char.ofNat 0x2028 || c = Char.ofNat 0x2029 ||
  c = Char.ofNat 0x202f || c = Char.ofNat 0x205f ||
  c = Char.ofNat 0x3000 || c = Char.ofNat 0xfeff

/-- JavaScript `String.prototype.trim`. -/
def jsTrim (s : String) : String :=
  String.mk (((s.data.dropWhile isJsSpace).reverse.dropWhile isJsSpace).reverse)

/-- JavaScript `s.slice(1, -1)`: drop the first and the last character. -/
def jsSlice1Neg1 (s : String) : String :=
  String.mk (s.data.drop 1 |>.dropLast)

/-- Index of the first occurrence of `pat` in the second argument, if any. -/
def findSub (pat : List Char) : List Char → Option Nat
  | [] => if pat.isEmpty then some 0 else none
  | c :: tl =>
    if pat.isPrefixOf (c :: tl) then some 0
    else (findSub pat tl).map Nat.succ

/-- JavaScript `String.prototype.replace` with a string pattern: replaces
only the first occurrence of `pat` (the source never uses regexp patterns
with an assignment of the result). -/
def replaceFirst (s pat rep : String) : String :=
  match findSub pat.data s.data with
  | none => s
  | some i =>
    String.mk (s.data.take i ++ rep.data ++ s.data.drop (i + pat.data.length))

/-- JavaScript `String.prototype.split` with a one-character separator,
on the character-list representation. -/
def splitOnChar (sep : Char) : List Char → List (List Char)
  | [] => [[]]
  | c :: tl =>
    if c = sep then [] :: splitOnChar sep tl
    else
      match splitOnChar sep tl with
      | [] => [[c]]
      | g :: gs => (c :: g) :: gs

/-- JavaScript `s.split(sep)` for a one-character separator. -/
def jsSplit (s : String) (sep : Char) : List String :=
  (splitOnChar sep s.data).map String.mk

/-- JavaScript `Array.prototype.join('/')`. -/
def joinSlash : List String → String
  | [] => ""
  | [x] => x
  | x :: y :: ys => x ++ "/" ++ joinSlash (y :: ys)

/-- JavaScript `s.includes(c)` for a one-character needle. -/
def jsIncludesChar (s : String) (c : Char) : Bool :=
  s.data.any (fun d => d = c)

/-! ## Node `path.posix` semantics

`path.join(a, b)` as the source uses it (two string arguments, POSIX
separators): filter out empty arguments, join with `/`, then normalize
(collapse repeated separators, resolve `.` and `..` segments, preserve a
trailing separator). -/

/-- Segment resolution of Node `normalizeString`: skips empty and `.`
segments, resolves `..` against the accumulated stack; `allowUp` is true
for relative paths, where leading `..` segments are preserved. -/
def pathSegsNormalize (allowUp : Bool) : List (List Char) → List (List Char) → List (List Char)
  | [], acc => acc.reverse
  | seg :: rest, acc =>
    if seg = [] || seg = ['.'] then pathSegsNormalize allowUp rest acc
    else if seg = ['.', '.'] then
      match acc with
      | [] =>
        if allowUp then pathSegsNormalize allowUp rest [seg]
        else pathSegsNormalize allowUp rest []
      | top :: tl =>
        if top = ['.', '.'] then pathSegsNormalize allowUp rest (seg :: acc)
        else pathSegsNormalize allowUp rest tl
    else pathSegsNormalize allowUp rest (seg :: acc)

/-- Node `path.posix.normalize`. -/
def posixNormalize (p : String) : String :=
  if p.data.isEmpty then "." else
  let isAbs : Bool := match p.data with | '/' :: _ => true | _ => false
  let trail : Bool := match p.data.getLast? with | some '/' => true | _ => false
  let segs := pathSegsNormalize (!isAbs) (splitOnChar '/' p.data) []
  let core := joinSlash (segs.map String.mk)
  if core = "" then (if isAbs then "/" else if trail then "./" else ".")
  else
    let core2 := if trail then core ++ "/" else core
    if isAbs then "/" ++ core2 else core2

/-- Node `path.posix.join` restricted to two arguments, as called on
line 61 of the source. -/
def pathJoin (a b : String) : String :=
  let joined := if a = "" then b else if b = "" then a else a ++ "/" ++ b
  if joined = "" then "." else posixNormalize joined

/-! ## The import regular expression

`importRegexp = /@import\s+(?:'([^']+)'|"([^"]+)"|([^\s;]+))/g` (line 22).
`importMatches` reproduces `String.prototype.match` with the global flag:
the list of full matched substrings, scanning left to right,
non-overlapping, with JavaScript's ordered-alternation semantics. -/

/-- The single-quote character, `\x27`. -/
def squote : Char := Char.ofNat 39

/-- One quoted alternative of the import regexp at the current position:
`q` nonempty-content `q`. `pre` is the already-matched `@import\s+` text,
`tl` the text after the opening quote. -/
def matchQuoted (q : Char) (pre tl : List Char) : Option (List Char × List Char) :=
  let inner := tl.takeWhile (fun d => !(d = q))
  match tl.drop inner.length with
  | d :: tl2 =>
    if inner.isEmpty then none
    else if d = q then some (pre ++ q :: (inner ++ [q]), tl2)
    else none
  | [] => none

/-- The bare (unquoted) alternative `[^\s;]+` of the import regexp. -/
def matchBare (pre rest1 : List Char) : Option (List Char × List Char) :=
  let bare := rest1.takeWhile (fun d => !(isJsSpace d) && !(d = ';'))
  if bare.isEmpty then none else some (pre ++ bare, rest1.drop bare.length)

/-- Attempt to match the import regexp at the head of `s`; on success,
returns the matched text and the remaining text. -/
def matchImportAt (s : List Char) : Option (List Char × List Char) :=
  if ("@import".data).isPrefixOf s then
    let rest0 := s.drop 7
    let ws := rest0.takeWhile isJsSpace
    if ws.isEmpty then none
    else
      let rest1 := rest0.drop ws.length
      let pre := "@import".data ++ ws
      match rest1 with
      | [] => none
      | c :: tl =>
        if c = squote then
          match matchQuoted squote pre tl with
          | some r => some r
          | none => matchBare pre rest1
        else if c = '"' then
          match matchQuoted '"' pre tl with
          | some r => some r
          | none => matchBare pre rest1
        else matchBare pre rest1
  else none

/-- Left-to-right global scan; the fuel starts at the text length and
bounds the number of scanning steps (each step consumes at least one
character, so the initial fuel is always sufficient). -/
def scanImports : List Char → Nat → List String
  | _, 0 => []
  | s, fuel + 1 =>
    match s with
    | [] => []
    | c :: tl =>
      match matchImportAt (c :: tl) with
      | some (m, rest) => String.mk m :: scanImports rest fuel
      | none => scanImports tl fuel

/-- `contents.match(importRegexp)` of line 52, as the (possibly empty)
list of matched statement texts. -/
def importMatches (s : String) : List String :=
  scanImports s.data s.data.length

/-! ## `fetchFile` (source lines 75-93)

The file system is a function from path to `FsResult`; `FsResult.enoent`
is the `err.code === 'ENOENT'` failure, `FsResult.ioError` any other read
failure. A direct hit returns the contents; on `enoent` the source retries
once at `path.replace('.scss', '.sass')` (first occurrence only) and
swallows *any* failure of that retry into empty contents
(`catch (err) {}`); any non-`enoent` direct failure is rethrown. -/

inductive FsResult where
  | found (contents : String)
  | enoent
  | ioError
deriving DecidableEq

def SassPluginClass.fetchFile (fs : String → FsResult) (p : String) : Except Unit String :=
  match fs p with
  | FsResult.found c => Except.ok c
  | FsResult.ioError => Except.error ()
  | FsResult.enoent =>
    match fs (replaceFirst p ".scss" ".sass") with
    | FsResult.found c => Except.ok c
    | _ => Except.ok ""

/-! ## `read` (source lines 43-73) -/

/-- Lines 44-49: split the path, pop the file name, and append a default
`.scss` extension when the file name has no dot. -/
def defaultExtFile (file : String) : String :=
  if jsIncludesChar ((jsSplit file '/').getLastD "") '.' then file
  else file ++ ".scss"

/-- Line 56: `importStatement.replace('@import ', '').trim().slice(1, -1)`
(the trailing `|| ''` of the source is the identity on strings). -/
def importTargetOf (stmt : String) : String :=
  jsSlice1Neg1 (jsTrim (replaceFirst stmt "@import " ""))

/-- Lines 58-64: a nonempty target not starting with `/` is joined as
`path.join(cwd, '/' + directoryOfFile + '/' + target)` where
`directoryOfFile` is the containing directory with the first occurrence of
`cwd` removed; otherwise the target is used verbatim. -/
def resolveTarget (cwd : String) (parts : List String) (tgt : String) : String :=
  match tgt.data with
  | [] => tgt
  | c :: _ =>
    if c = '/' then tgt
    else pathJoin cwd ("/" ++ replaceFirst (joinSlash parts) cwd "" ++ "/" ++ tgt)

/-- Target extraction followed by path resolution, for one matched
statement of the import regexp. -/
def resolveImport (cwd : String) (parts : List String) (stmt : String) : String :=
  resolveTarget cwd parts (importTargetOf stmt)

inductive ReadErr where
  | ioError
  | outOfFuel
deriving DecidableEq

/-- The `sassImports.forEach` body of lines 54-70, folded over the matched
statements. For each statement: resolve its target, remove the first
occurrence of `statement ++ ";"` from the working text and trim it (the
newline-stripping call on line 67 discards its result and is therefore
absent here), then append the recursive read of the target. An exception
from the recursive read propagates. -/
def inlineLoop (recurse : String → Except ReadErr String) (cwd : String)
    (parts : List String) : List String → String → Except ReadErr String
  | [], current => Except.ok current
  | stmt :: rest, current =>
    match recurse (resolveImport cwd parts stmt) with
    | Except.error e => Except.error e
    | Except.ok child =>
      inlineLoop recurse cwd parts rest
        (jsTrim (replaceFirst current (stmt ++ ";") "") ++ child)

/-- One unfolding of `read`: default extension, fetch, match, loop, and
return `contents ++ currentContents` (line 72). -/
def readStep (fs : String → FsResult) (cwd : String)
    (recurse : String → String → Except ReadErr String)
    (file contents : String) : Except ReadErr String :=
  match SassPluginClass.fetchFile fs (defaultExtFile file) with
  | Except.error _ => Except.error ReadErr.ioError
  | Except.ok c0 =>
    match inlineLoop (fun p => recurse p contents) cwd
        ((jsSplit file '/').dropLast) (importMatches c0) c0 with
    | Except.error e => Except.error e
    | Except.ok cur => Except.ok (contents ++ cur)

/-- `read(file, contents)` with explicit recursion fuel; the source has no
cycle detection, so exhausting the fuel is the distinct outcome
`ReadErr.outOfFuel`. -/
def SassPluginClass.read (fs : String → FsResult) (cwd : String) :
    Nat → String → String → Except ReadErr String
  | 0 => fun _ _ => Except.error ReadErr.outOfFuel
  | fuel + 1 => readStep fs cwd (SassPluginClass.read fs cwd fuel)

/-! ## `transform` (source lines 95-187)

The collaborators `transform` calls live in `core/File` and
`core/WorkflowContext`, outside the stylesheet plugin source; they are
modelled from the spec's collaborator contracts (sections 4.6 and 6):

* `isCSSCached` — "CacheGate: `isValid(file, transformTag) -> bool` ...
  read-only check; this system only consumes the boolean result":
  the environment field `cssCached`;
* `loadContents` — "the host's own content-loading step": sets the file's
  contents to the environment field `loadedContents`;
* `extractCSSDependencies` — "Pure function of its inputs from this
  system's viewpoint": the environment field `cssDependencies`, its
  invocation recorded as an event;
* `cache.writeStaticCache` — "persists current `file.contents`/`sourceMap`/
  `file.dependencies`": recorded as an event carrying the dependency list
  passed at write time;
* `sass.render` — "delivered asynchronously via a single callback
  invocation (exactly once, either success or error)": the environment
  field `renderResult`;
* `addStringDependency` — not described by the spec; modelled from its
  name as registering a string dependency on the file, in a field of its
  own so that it cannot be confused with the `analysis.dependencies`
  attribute the cache write consults.

The compiler-option and macro-table assembly of lines 108-157 builds pure
values that are handed to the collaborators; it is visible here only
through the collaborator results the environment supplies, since no field
of the file and no event depends on it.
-/

/-- The structured error the external compiler reports: message, origin
file, line and column. -/
structure SassError where
  message : String
  file : String
  line : Nat
  column : Nat
deriving DecidableEq

/-- The success value the external compiler reports: CSS text and an
optional source map. -/
structure RenderSuccess where
  css : String
  map : Option String
deriving DecidableEq

/-- The mutable file-object fields `transform` touches. -/
structure FileState where
  absPath : String
  contents : String
  sourceMap : Option String
  errors : List String
  analysisDependencies : List String
  stringDependencies : List String
  cssDependencies : List String
  bustCSSCache : Bool
deriving DecidableEq

/-- The results the external collaborators deliver during one
`transform` pass. -/
structure TransformEnv where
  cssCached : Bool
  loadedContents : String
  cssDependencies : List String
  renderResult : Except SassError RenderSuccess
  useCache : Bool

/-- What `transform` returns to the host: `undef` for the bare `return;`
statements of lines 100 and 105, otherwise a promise that either resolved
or rejected. -/
inductive RetKind where
  | undef
  | promiseResolved
  | promiseRejected
deriving DecidableEq

/-- Observable collaborator invocations, in program order. -/
inductive TransformEvent where
  | addStringDependency (s : String)
  | cacheCheck (tag : String)
  | loadContents
  | extractDependencies
  | render
  | cacheWrite (deps : List String)
deriving DecidableEq

structure TransformResult where
  ret : RetKind
  file : FileState
  events : List TransformEvent
deriving DecidableEq

/-- `transform(file)` of lines 95-187. -/
def SassPluginClass.transform (env : TransformEnv) (f0 : FileState) : TransformResult :=
  let f1 := { f0 with stringDependencies := f0.stringDependencies ++ ["fuse-box-css"] }
  if env.cssCached then
    { ret := RetKind.undef, file := f1,
      events := [TransformEvent.addStringDependency "fuse-box-css",
                 TransformEvent.cacheCheck "sass"] }
  else
    let f2 := { f1 with bustCSSCache := true, contents := env.loadedContents }
    if f2.contents = "" then
      { ret := RetKind.undef, file := f2,
        events := [TransformEvent.addStringDependency "fuse-box-css",
                   TransformEvent.cacheCheck "sass", TransformEvent.loadContents] }
    else
      let f3 := { f2 with cssDependencies := env.cssDependencies }
      let evs := [TransformEvent.addStringDependency "fuse-box-css",
                  TransformEvent.cacheCheck "sass", TransformEvent.loadContents,
                  TransformEvent.extractDependencies, TransformEvent.render]
      match env.renderResult with
      | Except.error e =>
        let errorFile := if e.file = "stdin" then f3.absPath else e.file
        let msg := e.message ++ "\n      at " ++ errorFile ++ ":" ++
          Nat.repr e.line ++ ":" ++ Nat.repr e.column
        let f4 := { f3 with contents := "", errors := f3.errors ++ [msg] }
        { ret := RetKind.promiseResolved, file := f4, events := evs }
      | Except.ok res =>
        let f4 := { f3 with sourceMap := res.map, contents := res.css }
        if env.useCache then
          let f5 := { f4 with analysisDependencies := [] }
          { ret := RetKind.promiseResolved, file := f5,
            events := evs ++ [TransformEvent.cacheWrite env.cssDependencies] }
        else
          { ret := RetKind.promiseResolved, file := f4, events := evs }

/-! ## Concrete fixtures used by the instance theorems -/

/-- Working directory `/cwd` with a chain `a.scss` that imports `b.scss`
which in turn imports `c.scss`. -/
def fsABC : String → FsResult := fun p =>
  if p = "/cwd/a.scss" then FsResult.found "a;@import \"b\";"
  else if p = "/cwd/b.scss" then FsResult.found "b;@import \"c\";"
  else if p = "/cwd/c.scss" then FsResult.found "c;"
  else FsResult.enoent

/-- A file whose text contains line breaks around its import, plus a
second file with no imports containing a line break. -/
def fsNl : String → FsResult := fun p =>
  if p = "/cwd/m.scss" then FsResult.found "x;\n@import \"n\";\ny;"
  else if p = "/cwd/n.scss" then FsResult.found "n;"
  else if p = "/cwd/plain.scss" then FsResult.found "p;\nr;"
  else FsResult.enoent

/-- A file whose import statement is not followed by a semicolon. -/
def fsNoSemi : String → FsResult := fun p =>
  if p = "/cwd/q.scss" then FsResult.found "a;@import \"n\" b;"
  else if p = "/cwd/n.scss" then FsResult.found "n;"
  else FsResult.enoent

/-- `dir/sub/file.scss` importing `"partial"`, with candidate partials in
both `dir/sub/` and `dir/`. -/
def fsSub : String → FsResult := fun p =>
  if p = "/cwd/dir/sub/file.scss" then FsResult.found "s;@import \"partial\";"
  else if p = "/cwd/dir/sub/partial.scss" then FsResult.found "ok;"
  else if p = "/cwd/dir/partial.scss" then FsResult.found "bad;"
  else FsResult.enoent

/-- Only the `.sass` spelling of the file exists. -/
def fsScssToSass : String → FsResult := fun p =>
  if p = "/d/a.sass" then FsResult.found "y;" else FsResult.enoent

/-- Only the `.scss` spelling of the file exists. -/
def fsSassOnly : String → FsResult := fun p =>
  if p = "/d/b.scss" then FsResult.found "x;" else FsResult.enoent

/-- An environment whose cache gate reports a valid cached artifact. -/
def envCached : TransformEnv :=
  { cssCached := true, loadedContents := "x;", cssDependencies := [],
    renderResult := Except.ok { css := "c;", map := none }, useCache := false }

/-- An environment for a cache miss whose compiler run fails at
`stdin:3:7`. -/
def envRenderErr : TransformEnv :=
  { cssCached := false, loadedContents := "x;", cssDependencies := ["/cwd/d.scss"],
    renderResult := Except.error { message := "bad", file := "stdin", line := 3, column := 7 },
    useCache := true }

/-- An environment for a cache miss whose compiler run succeeds with the
cache enabled. -/
def envRenderOk : TransformEnv :=
  { cssCached := false, loadedContents := "x;", cssDependencies := ["/cwd/d.scss"],
    renderResult := Except.ok { css := "out;", map := some "map;" }, useCache := true }

/-- A fresh input file as the host creates it before the pass. -/
def fileBase : FileState :=
  { absPath := "/cwd/a.scss", contents := "", sourceMap := none, errors := [],
    analysisDependencies := [], stringDependencies := [], cssDependencies := [],
    bustCSSCache := false }

/-! ## Claim C1 -/

/-- Claim C1, counterexample: the claim states `read` returns the
accumulated prefix exactly once at the front followed by the processed
text of the file. For the chain `a.scss` importing `b.scss` importing
`c.scss` and prefix `"P;"`, the source returns `"P;a;P;b;P;c;"` — the
prefix recurs before every inlined child's content, because each recursive
call receives the same `contents` argument (line 69) and prepends it again
(line 72) — which differs from the claimed prefix-once output
`"P;" ++ "a;b;c;"`. -/
theorem c1_counterexample :
    SassPluginClass.read fsABC "/cwd" 10 "/cwd/a.scss" "P;" =
      Except.ok "P;a;P;b;P;c;" ∧
    SassPluginClass.read fsABC "/cwd" 10 "/cwd/a.scss" "" = Except.ok "a;b;c;" ∧
    ("P;a;P;b;P;c;" : String) ≠ "P;" ++ "a;b;c;" :=
  ⟨rfl, rfl, by decide⟩

/-- Claim C1, amended: every successful `read` result starts with the
supplied prefix, and for `A` importing `B` importing `C` the children are
inlined after the parent's processed text in import-statement source order
with the prefix repeated before each child's contribution:
`p ++ A' ++ p ++ B' ++ p ++ C'` (`C` inside `B`'s contribution inside
`A`'s output). -/
theorem c1_read_output_structure :
    (∀ (fs : String → FsResult) (cwd : String) (fuel : Nat) (f p r : String),
        SassPluginClass.read fs cwd fuel f p = Except.ok r → ∃ t, r = p ++ t) ∧
    (∀ p : String, SassPluginClass.read fsABC "/cwd" 10 "/cwd/a.scss" p =
        Except.ok (p ++ ("a;" ++ (p ++ ("b;" ++ (p ++ "c;")))))) := by
  constructor
  · intro fs cwd fuel f p r h
    cases fuel with
    | zero => simp [SassPluginClass.read] at h
    | succ n =>
      simp only [SassPluginClass.read, readStep] at h
      split at h
      · exact absurd h (by simp)
      · split at h
        · exact absurd h (by simp)
        · simp only [Except.ok.injEq] at h
          exact ⟨_, h.symm⟩
  · intro p
    rfl

/-- Claim C1, witness: the universally quantified part of
`c1_read_output_structure` applied to the concrete chain run with prefix
`"P;"`. -/
theorem c1_witness : ∃ t, ("P;a;P;b;P;c;" : String) = "P;" ++ t :=
  c1_read_output_structure.1 fsABC "/cwd" 10 "/cwd/a.scss" "P;" "P;a;P;b;P;c;" rfl

/-! ## Claim C2 -/

/-- Claim C2: on a cache miss with nonempty loaded contents, when the
external compiler reports an error, `transform` clears the file's contents,
appends exactly one message of the shape
`<message>\n      at <origin>:<line>:<column>` — with the origin replaced
by the file's absolute path exactly when the compiler reported the `stdin`
sentinel — and the returned promise resolves rather than rejects. -/
theorem c2_render_error_recorded :
    ∀ (env : TransformEnv) (f : FileState) (e : SassError),
      env.cssCached = false → env.loadedContents ≠ "" →
      env.renderResult = Except.error e →
      (SassPluginClass.transform env f).ret = RetKind.promiseResolved ∧
      (SassPluginClass.transform env f).file.contents = "" ∧
      (SassPluginClass.transform env f).file.errors = f.errors ++
        [e.message ++ "\n      at " ++
          (if e.file = "stdin" then f.absPath else e.file) ++ ":" ++
          Nat.repr e.line ++ ":" ++ Nat.repr e.column] := by
  intro env f e h1 h2 h3
  simp [SassPluginClass.transform, h1, h2, h3]

/-- Claim C2, witness: `c2_render_error_recorded` at a concrete failing
compile whose error origin is the `stdin` sentinel. -/
theorem c2_witness :
    (SassPluginClass.transform envRenderErr fileBase).ret = RetKind.promiseResolved ∧
    (SassPluginClass.transform envRenderErr fileBase).file.contents = "" ∧
    (SassPluginClass.transform envRenderErr fileBase).file.errors =
      ["bad\n      at /cwd/a.scss:3:7"] := by
  have h := c2_render_error_recorded envRenderErr fileBase
    { message := "bad", file := "stdin", line := 3, column := 7 } rfl (by decide) rfl
  exact ⟨h.1, h.2.1, by rw [h.2.2]; rfl⟩

/-! ## Claim C3 -/

/-- Claim C3, counterexample: on a cache hit `transform` executes the bare
`return;` of line 100, producing `undefined` rather than any promise, so
the claim that every input yields a `Promise<void>` fails at this input. -/
theorem c3_counterexample :
    (SassPluginClass.transform envCached fileBase).ret = RetKind.undef ∧
    RetKind.undef ≠ RetKind.promiseResolved ∧
    RetKind.undef ≠ RetKind.promiseRejected := by decide

/-- Claim C3, amended: `transform` never returns a rejected promise, and
it returns `undefined` (no promise at all) exactly when the cache gate
reports a hit or the loaded contents are empty; in every other case the
returned promise resolves. -/
theorem c3_never_rejects :
    ∀ (env : TransformEnv) (f : FileState),
      (SassPluginClass.transform env f).ret ≠ RetKind.promiseRejected ∧
      ((SassPluginClass.transform env f).ret = RetKind.undef ↔
        (env.cssCached = true ∨ env.loadedContents = "")) := by
  intro env f
  cases h1 : env.cssCached with
  | true => simp [SassPluginClass.transform, h1]
  | false =>
    by_cases h2 : env.loadedContents = ""
    · simp [SassPluginClass.transform, h1, h2]
    · cases h3 : env.renderResult with
      | error e => simp [SassPluginClass.transform, h1, h2, h3]
      | ok res =>
        cases h4 : env.useCache with
        | true => simp [SassPluginClass.transform, h1, h2, h3, h4]
        | false => simp [SassPluginClass.transform, h1, h2, h3, h4]

/-- Claim C3, witness: `c3_never_rejects` at a concrete cache-hit run. -/
theorem c3_witness :
    (SassPluginClass.transform envCached fileBase).ret ≠ RetKind.promiseRejected :=
  (c3_never_rejects envCached fileBase).1

/-! ## Claim C4 -/

/-- Claim C4, counterexample: the claim states the fallback swaps the two
dialect extensions in either direction, so a missing `/d/b.sass` should be
served from the existing `/d/b.scss` (contents `"x;"`). The fallback of
line 85 only replaces `.scss` with `.sass`, so for a `.sass` path it
retries the unchanged path and returns empty contents instead. -/
theorem c4_counterexample :
    SassPluginClass.fetchFile fsSassOnly "/d/b.sass" = Except.ok "" ∧
    ("" : String) ≠ "x;" :=
  ⟨rfl, by decide⟩

/-- Claim C4, amended: `fetchFile` returns a direct hit's contents;
propagates any non-`ENOENT` direct failure; on `ENOENT` retries exactly
once at the path with the first occurrence of `.scss` replaced by `.sass`
(so only the `.scss` to `.sass` direction falls back; a missing `.sass`
path retries itself) and returns that fallback's contents on success and
empty contents on any fallback failure. -/
theorem c4_fallback_one_direction :
    (∀ (fs : String → FsResult) (p s : String),
        fs p = FsResult.found s → SassPluginClass.fetchFile fs p = Except.ok s) ∧
    (∀ (fs : String → FsResult) (p : String),
        fs p = FsResult.ioError → SassPluginClass.fetchFile fs p = Except.error ()) ∧
    (∀ (fs : String → FsResult) (p s : String),
        fs p = FsResult.enoent →
        fs (replaceFirst p ".scss" ".sass") = FsResult.found s →
        SassPluginClass.fetchFile fs p = Except.ok s) ∧
    (∀ (fs : String → FsResult) (p : String),
        fs p = FsResult.enoent →
        (∀ s, fs (replaceFirst p ".scss" ".sass") ≠ FsResult.found s) →
        SassPluginClass.fetchFile fs p = Except.ok "") ∧
    SassPluginClass.fetchFile fsScssToSass "/d/a.scss" = Except.ok "y;" := by
  refine ⟨?_, ?_, ?_, ?_, rfl⟩
  · intro fs p s h; simp [SassPluginClass.fetchFile, h]
  · intro fs p h; simp [SassPluginClass.fetchFile, h]
  · intro fs p s h1 h2; simp [SassPluginClass.fetchFile, h1, h2]
  · intro fs p h1 h2
    cases hfb : fs (replaceFirst p ".scss" ".sass") with
    | found s => exact absurd hfb (h2 s)
    | enoent => simp [SassPluginClass.fetchFile, h1, hfb]
    | ioError => simp [SassPluginClass.fetchFile, h1, hfb]

/-- Claim C4, witness: `c4_fallback_one_direction` applied to a file that
exists only under its `.sass` spelling, reached from the `.scss` path. -/
theorem c4_witness :
    SassPluginClass.fetchFile fsScssToSass "/d/a.scss" = Except.ok "y;" :=
  c4_fallback_one_direction.2.2.1 fsScssToSass "/d/a.scss" "y;" rfl rfl

/-! ## Claim C5 -/

/-- Claim C5: when a path's final segment has no dot, the default `.scss`
extension is appended before the read is attempted; a target beginning
with the path separator is used verbatim; and the relative target
`"partial"` inside `/cwd/dir/sub/file.scss` resolves to
`/cwd/dir/sub/partial` (the containing file's directory, not its parent),
so the full run inlines `dir/sub/partial.scss` (contents `"ok;"`), not
`dir/partial.scss` (contents `"bad;"`). -/
theorem c5_path_resolution :
    (∀ file : String,
        jsIncludesChar ((jsSplit file '/').getLastD "") '.' = false →
        defaultExtFile file = file ++ ".scss") ∧
    (∀ (cwd : String) (parts : List String) (cs : List Char),
        resolveTarget cwd parts (String.mk ('/' :: cs)) = String.mk ('/' :: cs)) ∧
    resolveImport "/cwd" ["", "cwd", "dir", "sub"] "@import \"partial\"" =
      "/cwd/dir/sub/partial" ∧
    SassPluginClass.read fsSub "/cwd" 10 "/cwd/dir/sub/file.scss" "" =
      Except.ok "s;ok;" := by
  refine ⟨?_, ?_, rfl, rfl⟩
  · intro file h; simp only [defaultExtFile]; rw [h]; simp
  · intro cwd parts cs; simp [resolveTarget]

/-- Claim C5, witness: `c5_path_resolution` applied to a dotless path. -/
theorem c5_witness : defaultExtFile "x" = "x" ++ ".scss" :=
  c5_path_resolution.1 "x" rfl

/-! ## Claim C6 -/

/-- Claim C6, counterexample: the claim states all line-break characters
are removed from the accumulated working text during import processing.
The stripping call on line 67 discards its result (`currentContents` is
never reassigned), so the output of inlining `/cwd/m.scss` still contains
its newlines; an import-free file is likewise returned with its newline
intact, not newline-stripped. -/
theorem c6_counterexample :
    SassPluginClass.read fsNl "/cwd" 10 "/cwd/m.scss" "" = Except.ok "x;\n\ny;n;" ∧
    jsIncludesChar "x;\n\ny;n;" '\n' = true ∧
    SassPluginClass.read fsNl "/cwd" 10 "/cwd/plain.scss" "" = Except.ok "p;\nr;" ∧
    jsIncludesChar "p;\nr;" '\n' = true :=
  ⟨rfl, rfl, rfl, rfl⟩

/-- Claim C6, amended: `read` never strips line breaks; a source text with
zero import matches is returned entirely unchanged (line breaks intact)
after the supplied prefix. -/
theorem c6_no_newline_stripping :
    ∀ (fs : String → FsResult) (cwd : String) (fuel : Nat) (f p t : String),
      SassPluginClass.fetchFile fs (defaultExtFile f) = Except.ok t →
      importMatches t = [] →
      SassPluginClass.read fs cwd (fuel + 1) f p = Except.ok (p ++ t) := by
  intro fs cwd fuel f p t h1 h2
  simp only [SassPluginClass.read, readStep, h1, h2, inlineLoop]

/-- Claim C6, witness: `c6_no_newline_stripping` at an import-free file
whose contents contain a newline. -/
theorem c6_witness :
    SassPluginClass.read fsNl "/cwd" 1 "/cwd/plain.scss" "q;" =
      Except.ok ("q;" ++ "p;\nr;") :=
  c6_no_newline_stripping fsNl "/cwd" 0 "/cwd/plain.scss" "q;" "p;\nr;" rfl rfl

/-! ## Claim C7 -/

/-- Claim C7, counterexample: the claim states a cache hit leaves every
field of the file unmutated, but line 96 registers the `fuse-box-css`
string dependency on the file before the cache check runs, so the file
that comes out of a cache-hit pass differs from the one that went in. -/
theorem c7_counterexample :
    (SassPluginClass.transform envCached fileBase).file ≠ fileBase := by decide

/-- Claim C7, amended: on a cache hit `transform` performs no work after
the check — the full result is the bare `undefined` return, an event trace
containing no compiler, dependency-extraction, or cache-write invocation,
and a file whose only change is the string-dependency registration made
before the check on every invocation. -/
theorem c7_cache_hit_short_circuit :
    ∀ (env : TransformEnv) (f : FileState), env.cssCached = true →
      SassPluginClass.transform env f =
        { ret := RetKind.undef,
          file := { f with stringDependencies := f.stringDependencies ++ ["fuse-box-css"] },
          events := [TransformEvent.addStringDependency "fuse-box-css",
                     TransformEvent.cacheCheck "sass"] } := by
  intro env f h
  simp [SassPluginClass.transform, h]

/-- Claim C7, witness: `c7_cache_hit_short_circuit` at a concrete
cache-hit run. -/
theorem c7_witness :
    SassPluginClass.transform envCached fileBase =
      { ret := RetKind.undef,
        file := { fileBase with
                  stringDependencies := fileBase.stringDependencies ++ ["fuse-box-css"] },
        events := [TransformEvent.addStringDependency "fuse-box-css",
                   TransformEvent.cacheCheck "sass"] } :=
  c7_cache_hit_short_circuit envCached fileBase rfl

/-! ## Claim C8 -/

/-- Claim C8, counterexample: the claim states `bustCSSCache` is set to
true on every invocation regardless of hit or miss, but on a cache hit the
`return;` of line 100 runs before the assignment of line 102, so the flag
keeps its prior value (here `false`). -/
theorem c8_counterexample :
    (SassPluginClass.transform envCached fileBase).file.bustCSSCache = false ∧
    fileBase.bustCSSCache = false := by decide

/-- Claim C8, amended: `bustCSSCache` is set to true immediately after the
cache check only when the check reports a miss; on a hit `transform`
returns before reaching the assignment and the flag is left unchanged. -/
theorem c8_bust_flag_only_on_miss :
    ∀ (env : TransformEnv) (f : FileState),
      (env.cssCached = false → (SassPluginClass.transform env f).file.bustCSSCache = true) ∧
      (env.cssCached = true →
        (SassPluginClass.transform env f).file.bustCSSCache = f.bustCSSCache) := by
  intro env f
  constructor
  · intro h1
    by_cases h2 : env.loadedContents = ""
    · simp [SassPluginClass.transform, h1, h2]
    · cases h3 : env.renderResult with
      | error e => simp [SassPluginClass.transform, h1, h2, h3]
      | ok res =>
        cases h4 : env.useCache with
        | true => simp [SassPluginClass.transform, h1, h2, h3, h4]
        | false => simp [SassPluginClass.transform, h1, h2, h3, h4]
  · intro h1
    simp [SassPluginClass.transform, h1]

/-- Claim C8, witness: `c8_bust_flag_only_on_miss` at a concrete
cache-hit run. -/
theorem c8_witness :
    (SassPluginClass.transform envCached fileBase).file.bustCSSCache =
      fileBase.bustCSSCache :=
  (c8_bust_flag_only_on_miss envCached fileBase).2 rfl

/-! ## Claim C9 -/

/-- Claim C9: after a successful compile with caching enabled, the cache
write receives the freshly extracted dependency list and is the final
collaborator invocation of the pass, and the file's transient
`analysis.dependencies` attribute is empty in the resulting file state —
it is populated only for the duration of the write (lines 178-180). -/
theorem c9_deps_cleared_after_cache_write :
    ∀ (env : TransformEnv) (f : FileState) (res : RenderSuccess),
      env.cssCached = false → env.loadedContents ≠ "" →
      env.renderResult = Except.ok res → env.useCache = true →
      (SassPluginClass.transform env f).file.analysisDependencies = [] ∧
      (SassPluginClass.transform env f).events =
        [TransformEvent.addStringDependency "fuse-box-css",
         TransformEvent.cacheCheck "sass", TransformEvent.loadContents,
         TransformEvent.extractDependencies, TransformEvent.render,
         TransformEvent.cacheWrite env.cssDependencies] := by
  intro env f res h1 h2 h3 h4
  simp [SassPluginClass.transform, h1, h2, h3, h4]

/-- Claim C9, witness: `c9_deps_cleared_after_cache_write` at a concrete
successful cached compile. -/
theorem c9_witness :
    (SassPluginClass.transform envRenderOk fileBase).file.analysisDependencies = [] ∧
    (SassPluginClass.transform envRenderOk fileBase).events =
      [TransformEvent.addStringDependency "fuse-box-css",
       TransformEvent.cacheCheck "sass", TransformEvent.loadContents,
       TransformEvent.extractDependencies, TransformEvent.render,
       TransformEvent.cacheWrite ["/cwd/d.scss"]] := by
  have h := c9_deps_cleared_after_cache_write envRenderOk fileBase
    { css := "out;", map := some "map;" } rfl (by decide) rfl rfl
  exact ⟨h.1, by rw [h.2]; rfl⟩

/-! ## Claim C10 -/

/-- Claim C10: when a file's single import match is not followed by a
semicolon, the removal of line 66 (which replaces only
`statement ++ ";"`) finds no occurrence, so the directive text stays in
the (trimmed, otherwise unmodified) parent text while the import target is
still resolved and recursively inlined after it; the concrete run shows
the directive `@import "n"` surviving in the output next to the inlined
contents of `n.scss`. -/
theorem c10_import_without_semicolon :
    (∀ (fs : String → FsResult) (cwd : String) (fuel : Nat) (f p t stmt r : String),
      SassPluginClass.fetchFile fs (defaultExtFile f) = Except.ok t →
      importMatches t = [stmt] →
      findSub (stmt ++ ";").data t.data = none →
      SassPluginClass.read fs cwd fuel
          (resolveImport cwd ((jsSplit f '/').dropLast) stmt) p = Except.ok r →
      SassPluginClass.read fs cwd (fuel + 1) f p =
        Except.ok (p ++ (jsTrim t ++ r))) ∧
    SassPluginClass.read fsNoSemi "/cwd" 10 "/cwd/q.scss" "" =
      Except.ok "a;@import \"n\" b;n;" := by
  constructor
  · intro fs cwd fuel f p t stmt r h1 h2 h3 h4
    simp only [SassPluginClass.read, readStep, h1, h2, inlineLoop, h4,
      replaceFirst, h3]
  · rfl

/-- Claim C10, witness: the universally quantified part of
`c10_import_without_semicolon` applied to the concrete semicolon-free
statement. -/
theorem c10_witness :
    SassPluginClass.read fsNoSemi "/cwd" 10 "/cwd/q.scss" "" =
      Except.ok ("" ++ (jsTrim "a;@import \"n\" b;" ++ "n;")) :=
  c10_import_without_semicolon.1 fsNoSemi "/cwd" 9 "/cwd/q.scss" ""
    "a;@import \"n\" b;" "@import \"n\"" "n;" rfl rfl rfl rfl
